import Mathlib

/-!
Verification of the nonlinear-expression compiler of the MATLAB SCIP
interface (`addNonlinearCon` in `Source/scip/scipnlmex.cpp`, SCIP >= 8
code path, together with the validation logic of the caller in
`Source/scip/scipmex.cpp`).

The instruction stream is an array of doubles, modelled here as `List Rat`
(the numeric values appearing in the stream and in the built expressions
are handled exactly).  The state machine of `addNonlinearCon` is embedded
step by step: every `mexErrMsgTxt` call of the source becomes an
`Except.error` carrying the source's message, every expression created via
the SCIP expression constructors becomes an `ExprNode`, and the three
bookkeeping arrays (`savexplst`, `savvarlst`, `savprolst`) become lists
together with their position counters (`psavexplst`, `psavvarlst`,
`psavprolst`), maintained exactly as the source maintains them.
-/

namespace ScipNL

/-! Enumeration constants, from `enum {EMPTY=-2,READ,NUM,VAR,EXP,MUL,DIV,ADD,
SUB,SQUARE,SQRT,POW,EXPNT,LOG,SIN,COS,TAN,MIN,MAX,ABS,SIGN};` and
`const int OTHER = 98, EXIT = 99;` in scipnlmex.cpp. -/

def EMPTY : Int := -2

def READ : Int := -1

def NUM : Int := 0

def VAR : Int := 1

def EXP : Int := 2

def MUL : Int := 3

def DIV : Int := 4

def ADD : Int := 5

def SUB : Int := 6

def SQUARE : Int := 7

def SQRT : Int := 8

def POW : Int := 9

def EXPNT : Int := 10

def LOG : Int := 11

def SIN : Int := 12

def COS : Int := 13

def TAN : Int := 14

def MIN : Int := 15

def MAX : Int := 16

def ABS : Int := 17

def SIGN : Int := 18

def OTHER : Int := 98

def EXIT : Int := 99

/-- Buffer size of `savexplst`/`savvarlst`, from `#define MAX_DEPTH 512`. -/
def MAX_DEPTH : Int := 512

/-- The C cast `(int)d` applied to a stream element: truncation toward
zero, `Int.div` on the rational's numerator and denominator. -/
def cIntCast (q : Rat) : Int := q.num.tdiv (q.den : Int)

/-- Expression nodes, mirroring the SCIP expression constructors the source
calls: `SCIPcreateExprValue`, `SCIPcreateExprVar`, `SCIPcreateExprSum` with
one or two children, `SCIPcreateExprProduct` with two children,
`SCIPcreateExprPow`, and the unary function constructors.  `varE` carries
the external decision-variable index (the source's `vars[varind[i]]`). -/
inductive ExprNode where
  | val (c : Rat)
  | varE (idx : Int)
  | sum1 (coef : Rat) (child : ExprNode) (cst : Rat)
  | sum2 (coef1 : Rat) (child1 : ExprNode) (coef2 : Rat) (child2 : ExprNode) (cst : Rat)
  | prod2 (child1 child2 : ExprNode) (coef : Rat)
  | powE (base : ExprNode) (expo : Rat)
  | expE (child : ExprNode)
  | logE (child : ExprNode)
  | absE (child : ExprNode)
  | sinE (child : ExprNode)
  | cosE (child : ExprNode)
deriving DecidableEq

/-- Exact evaluation of a power node with rational base.  A negative
integer power of zero (the reciprocal `x^-1` the source builds for every
division by a symbolic divisor, evaluated at `x = 0`) has no value: this is
the evaluation-time division by zero.  Non-integer exponents (for example
`sqrt`) have no exact rational value and also evaluate to `none`. -/
def ratPow (b : Rat) (e : Rat) : Option Rat :=
  if e.den = 1 then
    if 0 ≤ e.num then some (b ^ e.num.toNat)
    else if b = 0 then none
    else some ((b ^ (-e.num).toNat)⁻¹)
  else none

/-- Post-order evaluation of a built expression at a point (one value per
external decision variable), mirroring `SCIPevalExpr`.  Transcendental
nodes have no exact rational value and evaluate to `none`. -/
def evalN (pt : List Rat) : ExprNode → Option Rat
  | .val c => some c
  | .varE idx => if 0 ≤ idx then pt[idx.toNat]? else none
  | .sum1 coef child cst =>
      (evalN pt child).map fun v => coef * v + cst
  | .sum2 coef1 child1 coef2 child2 cst =>
      match evalN pt child1, evalN pt child2 with
      | some v1, some v2 => some (coef1 * v1 + coef2 * v2 + cst)
      | _, _ => none
  | .prod2 child1 child2 coef =>
      match evalN pt child1, evalN pt child2 with
      | some v1, some v2 => some (coef * (v1 * v2))
      | _, _ => none
  | .powE base expo => (evalN pt base).bind fun v => ratPow v expo
  | .expE _ => none
  | .logE _ => none
  | .absE child => (evalN pt child).map fun v => |v|
  | .sinE _ => none
  | .cosE _ => none

/-- The local state of one `addNonlinearCon` call: the (mutable)
instruction array, the current read position, the state-machine state, the
two argument registers, the counters, the expression arena `exp` (in
creation order, so `exp[expno]` is `exp.getD expno`), and the three saved
lists with their position counters exactly as in the source. -/
structure NLState where
  instr : List Rat
  pos : Nat
  st : Int
  args0 : Int
  args1 : Int
  varcnt : Int
  vari : Int
  expno : Nat
  num : Rat
  exp : List ExprNode
  savexplst : List Int
  psavexplst : Int
  savvarlst : List Int
  psavvarlst : Int
  savprolst : List Int
  psavprolst : Int
  varind : List Int
  no_var : Nat
  no_ops : Nat
deriving DecidableEq

/-- The source's `expvars[v]`: the variable expression for occurrence slot
`v`, referring to external variable index `varind[v]`. -/
def expvar (varind : List Int) (v : Int) : ExprNode :=
  .varE (varind.getD v.toNat EMPTY)

/-- Out-of-bounds arena read (never reached on the paths the source
guards). -/
def junkNode : ExprNode := .val 0

/-- The two-operand dispatch of `addNonlinearCon` (the body of
`case MUL: case DIV: case ADD: case SUB: case POW:` after the two-argument
check, scipnlmex.cpp lines 369-658).  `flip` is the source's
`instr[i] == 1` test on the operator's trailing slot.  Returns the arena
with the one new node written at `exp[expno]`, plus whether the
`EXP (op) EXP` case consumed the top of `savexplst` (`psavexplst--`). -/
def binOpDispatch (op a0 a1 : Int) (num : Rat) (vari : Int) (flip : Bool)
    (arena : List ExprNode) (expno : Nat) (varind : List Int)
    (sxl : List Int) : Except String (List ExprNode × Bool) :=
  -- NUM (op) VAR (linear except division)
  if a0 = NUM ∧ a1 = VAR then
    if op = ADD then .ok (arena ++ [.sum1 1 (expvar varind vari) num], false)
    else if op = SUB then .ok (arena ++ [.sum1 (-1) (expvar varind vari) num], false)
    else if op = MUL then .ok (arena ++ [.sum1 num (expvar varind vari) 0], false)
    else if op = DIV then
      .ok (arena ++ [.sum1 num (.powE (expvar varind vari) (-1)) 0], false)
    else if op = POW then
      .error "You cannot use POWER with the exponent as a variable. For x^y use exp(y*log(x))."
    else .error "Operator not implemented yet for NUM (op) VAR!"
  -- VAR (op) NUM (linear except pow)
  else if a0 = VAR ∧ a1 = NUM then
    if op = ADD then .ok (arena ++ [.sum1 1 (expvar varind vari) num], false)
    else if op = SUB then .ok (arena ++ [.sum1 1 (expvar varind vari) (-num)], false)
    else if op = MUL then .ok (arena ++ [.sum1 num (expvar varind vari) 0], false)
    else if op = DIV then
      if num = 0 then .error "Division by constant 0."
      else .ok (arena ++ [.sum1 (1 / num) (expvar varind vari) 0], false)
    else if op = POW then .ok (arena ++ [.powE (expvar varind vari) num], false)
    else .error "Operator not implemented yet for VAR (op) NUM!"
  -- VAR (op) VAR
  else if a0 = VAR ∧ a1 = VAR then
    if op = ADD then
      .ok (arena ++ [.sum2 1 (expvar varind (vari - 1)) 1 (expvar varind vari) 0], false)
    else if op = SUB then
      .ok (arena ++ [.sum2 1 (expvar varind (vari - 1)) (-1) (expvar varind vari) 0], false)
    else if op = MUL then
      .ok (arena ++ [.prod2 (expvar varind (vari - 1)) (expvar varind vari) 1], false)
    else if op = DIV then
      .ok (arena ++ [.prod2 (expvar varind (vari - 1)) (.powE (expvar varind vari) (-1)) 1], false)
    else if op = POW then
      .error "You cannot use POWER with the exponent as a variable. For x^y use exp(y*log(x))."
    else .error "Operator not implemented yet for VAR (op) VAR!"
  -- EXP (op) NUM
  else if a0 = EXP ∧ a1 = NUM then
    let prev := arena.getD (expno - 1) junkNode
    if op = ADD then .ok (arena ++ [.sum1 1 prev num], false)
    else if op = SUB then
      if flip then .ok (arena ++ [.sum1 (-1) prev num], false)
      else .ok (arena ++ [.sum1 1 prev (-num)], false)
    else if op = MUL then .ok (arena ++ [.sum1 num prev 0], false)
    else if op = DIV then
      if flip then .ok (arena ++ [.sum1 num (.powE prev (-1)) 0], false)
      else if num = 0 then .error "Division by constant 0."
      else .ok (arena ++ [.sum1 (1 / num) prev 0], false)
    else if op = POW then .ok (arena ++ [.powE prev num], false)
    else .error "Operator not implemented yet for NUM (op) VAR!"
  -- EXP (op) VAR
  else if a0 = EXP ∧ a1 = VAR then
    let prev := arena.getD (expno - 1) junkNode
    if op = ADD then .ok (arena ++ [.sum2 1 prev 1 (expvar varind vari) 0], false)
    else if op = SUB then
      if flip then .ok (arena ++ [.sum2 (-1) prev 1 (expvar varind vari) 0], false)
      else .ok (arena ++ [.sum2 1 prev (-1) (expvar varind vari) 0], false)
    else if op = MUL then .ok (arena ++ [.prod2 prev (expvar varind vari) 1], false)
    else if op = DIV then
      if flip then .ok (arena ++ [.prod2 (.powE prev (-1)) (expvar varind vari) 1], false)
      else .ok (arena ++ [.prod2 (.powE (expvar varind vari) (-1)) prev 1], false)
    else if op = POW then
      .error "You cannot use POWER with the exponent as a variable. For x^y use exp(y*log(x))."
    else .error "Operator not implemented yet for EXP (op) VAR!"
  -- EXP (op) EXP
  else if a0 = EXP ∧ a1 = EXP then
    let savexp := sxl.headD EMPTY
    if savexp = EMPTY ∨ savexp < 0 then
      .error "Error processing waiting expression, found empty index."
    else
      let t0 := arena.getD savexp.toNat junkNode
      let t1 := arena.getD (expno - 1) junkNode
      if op = ADD then .ok (arena ++ [.sum2 1 t0 1 t1 0], true)
      else if op = SUB then
        if flip then .ok (arena ++ [.sum2 (-1) t0 1 t1 0], true)
        else .ok (arena ++ [.sum2 1 t0 (-1) t1 0], true)
      else if op = MUL then .ok (arena ++ [.prod2 t0 t1 1], true)
      else if op = DIV then
        if flip then .ok (arena ++ [.prod2 (.powE t0 (-1)) t1 1], true)
        else .ok (arena ++ [.prod2 (.powE t1 (-1)) t0 1], true)
      else
        .error "Unexpected operator for combining expressions, currently only +, -, * and / supported"
  else .error "Grouping of arguments not implemented yet."

/-- End-of-operator bookkeeping: `if ( i == (no_instr-1) ) state = EXIT;
else { state = READ; expno++; }`. -/
def advanceOp (isLast : Bool) (s : NLState) : NLState :=
  if isLast then { s with st := EXIT }
  else { s with st := READ, expno := s.expno + 1 }

/-- `case NUM:` of the main loop (scipnlmex.cpp lines 236-275): collect the
constant and place a NUM tag in the argument registers, possibly deferring
a full register pair onto the saved lists. -/
def handleNum (tok : Rat) (s : NLState) : Except String NLState :=
  let s := { s with num := tok, st := READ }
  if s.args0 = EMPTY then .ok { s with args0 := NUM }
  else if s.args1 = EMPTY then .ok { s with args1 := NUM }
  else if s.args0 = EXP then
    if MAX_DEPTH ≤ s.psavexplst then
      .error "Maximum function depth exceeded [expression list]."
    else
      .ok { s with
        savexplst := ((s.expno : Int) - 1) :: s.savexplst
        psavexplst := s.psavexplst + 1
        savprolst := EXP :: s.savprolst
        psavprolst := s.psavprolst + 1
        args0 := s.args1, args1 := NUM }
  else if s.args0 = VAR then
    if MAX_DEPTH ≤ s.psavvarlst then
      .error "Maximum function depth exceeded [variable list]."
    else
      .ok { s with
        savvarlst := (s.varcnt - 1) :: s.savvarlst
        psavvarlst := s.psavvarlst + 1
        savprolst := VAR :: s.savprolst
        psavprolst := s.psavprolst + 1
        args0 := s.args1, args1 := NUM }
  else .error "Error in order of instructions."

/-- `case VAR:` of the main loop (scipnlmex.cpp lines 277-318): count the
variable occurrence and place a VAR tag in the argument registers, possibly
deferring a full register pair onto the saved lists.  In the both-VAR
branch the source inspects `instr[i-3]` and `instr[i-5]` to decide which
occurrence to defer. -/
def handleVar (s : NLState) : Except String NLState :=
  let s := { s with varcnt := s.varcnt + 1, st := READ }
  if s.args0 = EMPTY then .ok { s with args0 := VAR }
  else if s.args1 = EMPTY then .ok { s with args1 := VAR }
  else if s.args0 = EXP then
    if MAX_DEPTH ≤ s.psavexplst then
      .error "Maximum function depth exceeded [expression list]."
    else
      .ok { s with
        savexplst := ((s.expno : Int) - 1) :: s.savexplst
        psavexplst := s.psavexplst + 1
        savprolst := EXP :: s.savprolst
        psavprolst := s.psavprolst + 1
        args0 := s.args1, args1 := VAR }
  else if s.args0 = VAR then
    if MAX_DEPTH ≤ s.psavvarlst then
      .error "Maximum function depth exceeded [variable list]."
    else
      let deferred :=
        if s.instr.getD (s.pos - 3) 0 = (VAR : Rat) ∧ s.instr.getD (s.pos - 5) 0 = (VAR : Rat)
        then s.varcnt - 2 else s.varcnt - 1
      .ok { s with
        savvarlst := deferred :: s.savvarlst
        psavvarlst := s.psavvarlst + 1
        savprolst := VAR :: s.savprolst
        psavprolst := s.psavprolst + 1
        args0 := s.args1, args1 := VAR }
  else .error "Error in order of instructions."

/-- The two-operand operator cases of the main loop (scipnlmex.cpp lines
321-667): optionally pop a deferred operand into the empty second register
(writing the flip flag `1` into the instruction array at the operator's
trailing slot when a deferred variable is consumed), require both
registers filled, dispatch, then reset the registers. -/
def handleBinop (isLast : Bool) (s : NLState) : Except String NLState :=
  let s := { s with vari := s.varcnt }
  let popped : Except String NLState :=
    if s.args1 = EMPTY ∧ 0 ≤ s.psavprolst then
      let toProcess := s.savprolst.headD EMPTY
      let s1 := { s with savprolst := s.savprolst.tail, psavprolst := s.psavprolst - 1 }
      if toProcess = VAR then
        if s1.psavvarlst < (0 : Int) then
          .error "Error reading variable to process - Process List indicates variable to process, but not present in variable list."
        else
          let v := s1.savvarlst.headD EMPTY
          if v = EMPTY ∨ v < 0 then
            .error "Error processing waiting variable, found empty or negative index."
          else
            .ok { s1 with
              vari := v, args1 := VAR
              instr := s1.instr.set s1.pos 1
              savvarlst := s1.savvarlst.tail
              psavvarlst := s1.psavvarlst - 1 }
      else if toProcess = EXP then
        if s1.psavexplst < (0 : Int) then
          .error "Error reading expression to process - Process List indicates expression to process, but not present in expression list."
        else .ok { s1 with args1 := EXP }
      else .error "Unknown entry in process list."
    else .ok s
  popped.bind fun s2 =>
    if s2.args0 = EMPTY ∨ s2.args1 = EMPTY then
      .error "Error attempting to create nonlinear expression, operator doesn\x27t have two operands."
    else
      let flip := s2.instr.getD s2.pos 0 = (1 : Rat)
      match binOpDispatch s2.st s2.args0 s2.args1 s2.num s2.vari flip
          s2.exp s2.expno s2.varind s2.savexplst with
      | .error e => .error e
      | .ok (newexp, popExp) =>
        .ok (advanceOp isLast
          { s2 with
            exp := newexp, args0 := EXP, args1 := EMPTY
            savexplst := if popExp then s2.savexplst.tail else s2.savexplst
            psavexplst := if popExp then s2.psavexplst - 1 else s2.psavexplst })

/-- The single-operand function cases of the main loop (scipnlmex.cpp
lines 670-803): defer an unprocessed expression or variable if the
registers hold one, then dispatch on VAR versus EXP.  Note that `SQUARE`
is listed among the cases but has no dispatch entry and falls to the
not-implemented default, exactly as in the source. -/
def handleUnary (isLast : Bool) (s : NLState) : Except String NLState :=
  let s := { s with vari := s.varcnt }
  if s.args0 = EMPTY then
    .error "Error attempting to create nonlinear expression, function doesn\x27t have an operand."
  else
    let step1 : Except String NLState :=
      if s.args0 = EXP ∧ s.args1 = VAR then
        if MAX_DEPTH ≤ s.psavexplst then
          .error "Maximum function depth exceeded [expression list]."
        else
          .ok { s with
            savexplst := ((s.expno : Int) - 1) :: s.savexplst
            psavexplst := s.psavexplst + 1
            savprolst := EXP :: s.savprolst
            psavprolst := s.psavprolst + 1
            args0 := VAR, args1 := EMPTY }
      else .ok s
    step1.bind fun sa =>
      let step2 : Except String NLState :=
        if sa.args0 = VAR ∧ sa.args1 = VAR then
          if MAX_DEPTH ≤ sa.psavvarlst then
            .error "Maximum function depth exceeded [variable list]."
          else
            .ok { sa with
              savvarlst := (sa.varcnt - 1) :: sa.savvarlst
              psavvarlst := sa.psavvarlst + 1
              savprolst := VAR :: sa.savprolst
              psavprolst := sa.psavprolst + 1 }
        else .ok sa
      step2.bind fun sb =>
        if sb.args0 = VAR then
          if sb.vari < 0 then
            .error "Variable index is negative when creating fcn(var)."
          else
            let child := expvar sb.varind sb.vari
            if sb.st = SQRT then
              .ok (advanceOp isLast { sb with
                exp := sb.exp ++ [.powE child (1 / 2)], args0 := EXP, args1 := EMPTY })
            else if sb.st = EXPNT then
              .ok (advanceOp isLast { sb with
                exp := sb.exp ++ [.expE child], args0 := EXP, args1 := EMPTY })
            else if sb.st = LOG then
              .ok (advanceOp isLast { sb with
                exp := sb.exp ++ [.logE child], args0 := EXP, args1 := EMPTY })
            else if sb.st = ABS then
              .ok (advanceOp isLast { sb with
                exp := sb.exp ++ [.absE child], args0 := EXP, args1 := EMPTY })
            else if sb.st = SIN then
              .ok (advanceOp isLast { sb with
                exp := sb.exp ++ [.sinE child], args0 := EXP, args1 := EMPTY })
            else if sb.st = COS then
              .ok (advanceOp isLast { sb with
                exp := sb.exp ++ [.cosE child], args0 := EXP, args1 := EMPTY })
            else .error "Operator not implemented yet for FCN ( VAR )!"
        else if sb.args0 = EXP then
          let child := sb.exp.getD (sb.expno - 1) junkNode
          if sb.st = SQRT then
            .ok (advanceOp isLast { sb with
              exp := sb.exp ++ [.powE child (1 / 2)], args0 := EXP, args1 := EMPTY })
          else if sb.st = EXPNT then
            .ok (advanceOp isLast { sb with
              exp := sb.exp ++ [.expE child], args0 := EXP, args1 := EMPTY })
          else if sb.st = LOG then
            .ok (advanceOp isLast { sb with
              exp := sb.exp ++ [.logE child], args0 := EXP, args1 := EMPTY })
          else if sb.st = ABS then
            .ok (advanceOp isLast { sb with
              exp := sb.exp ++ [.absE child], args0 := EXP, args1 := EMPTY })
          else if sb.st = SIN then
            .ok (advanceOp isLast { sb with
              exp := sb.exp ++ [.sinE child], args0 := EXP, args1 := EMPTY })
          else if sb.st = COS then
            .ok (advanceOp isLast { sb with
              exp := sb.exp ++ [.cosE child], args0 := EXP, args1 := EMPTY })
          else .error "Operator not implemented yet for FCN ( EXP )!"
        else
          .error "Unknown argument to operate function on, only options are VAR (variable) or EXP (expression)."

/-- One iteration of the main processing loop (the `switch(state)` over the
token at the current position).  `isLast` is the source's
`i == (no_instr-1)`. -/
def nlStep (tok : Rat) (isLast : Bool) (s : NLState) : Except String NLState :=
  if s.st = READ then .ok { s with st := cIntCast tok }
  else if s.st = NUM then handleNum tok s
  else if s.st = VAR then handleVar s
  else if s.st = MUL ∨ s.st = DIV ∨ s.st = ADD ∨ s.st = SUB ∨ s.st = POW then
    handleBinop isLast s
  else if s.st = SQUARE ∨ s.st = SQRT ∨ s.st = EXPNT ∨ s.st = LOG ∨ s.st = ABS ∨
      s.st = SIN ∨ s.st = COS then
    handleUnary isLast s
  else if s.st = MIN ∨ s.st = MAX then
    .error "Max and Min not currently implemented (in this interface and SCIP)."
  else if s.st = TAN then
    .error "Tangent function not currently implemented (in SCIP)."
  else if s.st = SIGN then
    .error "Sign not currently implemented (in SCIP)."
  else if s.st = EXIT then .ok s
  else .error "Unknown (or out of order) instruction."

/-- The main processing loop `for (i = 0; i < no_instr; i++)`, consuming
the remaining tokens one at a time and advancing the read position. -/
def nlLoop : List Rat → NLState → Except String NLState
  | [], s => .ok s
  | tok :: rest, s =>
    match nlStep tok rest.isEmpty s with
    | .error e => .error e
    | .ok s' => nlLoop rest { s' with pos := s'.pos + 1 }

/-- The pre-scan counting variables and operators (scipnlmex.cpp lines
123-142): a two-state READ/OTHER alternation with no error path.  The
boolean argument is `true` in the READ state. -/
def prescanGo : List Rat → Bool → Nat × Nat
  | [], _ => (0, 0)
  | tok :: rest, true =>
    let r := prescanGo rest false
    ((if tok = (VAR : Rat) then r.1 + 1 else r.1),
     (if (EXP : Rat) < tok then r.2 + 1 else r.2))
  | _ :: rest, false => prescanGo rest true

/-- Pre-scan entry point: `(no_var, no_ops)` for a stream. -/
def prescanCounts (instr : List Rat) : Nat × Nat := prescanGo instr true

/-- The second pre-pass filling `varind` with the variable indices found in
the stream (scipnlmex.cpp lines 148-170); again no error path. -/
def varindGo : List Rat → Int → List Int
  | [], _ => []
  | tok :: rest, stt =>
    if stt = READ then
      if tok = (VAR : Rat) then varindGo rest VAR else varindGo rest OTHER
    else if stt = VAR then cIntCast tok :: varindGo rest READ
    else varindGo rest READ

/-- `varind` for a stream. -/
def varindScan (instr : List Rat) : List Int := varindGo instr READ

/-- The freshly initialised local state of one `addNonlinearCon` call. -/
def initState (instr : List Rat) : NLState :=
  { instr := instr, pos := 0, st := READ, args0 := EMPTY, args1 := EMPTY
    varcnt := -1, vari := -1, expno := 0, num := 0
    exp := [], savexplst := [], psavexplst := -1
    savvarlst := [], psavvarlst := -1, savprolst := [], psavprolst := -1
    varind := varindScan instr
    no_var := (prescanCounts instr).1, no_ops := (prescanCounts instr).2 }

/-- The expression-building part of `addNonlinearCon`: the two pre-passes,
the two 2-token short-circuits (constant-only and single-variable streams,
scipnlmex.cpp lines 202-220), and the main state-machine loop.  Returns
the final local state, or the message of the `mexErrMsgTxt` call that
aborted the compile. -/
def addNonlinearConModel (instr : List Rat) : Except String NLState :=
  let s0 := initState instr
  if instr.length = 2 ∧ instr.getD 0 0 = (NUM : Rat) then
    .ok { s0 with exp := [.val (instr.getD 1 0)] }
  else if instr.length = 2 ∧ instr.getD 0 0 = (VAR : Rat) then
    .ok { s0 with exp := [.sum1 1 (expvar s0.varind 0) 0] }
  else nlLoop instr s0

/-- The root handed to validation and constraint creation: `exp[expno]`. -/
def rootOf (s : NLState) : Option ExprNode := s.exp[s.expno]?

/-- The compiled root of a stream, `none` when the compile aborted. -/
def compiledRoot (instr : List Rat) : Option ExprNode :=
  match addNonlinearConModel instr with
  | .ok s => rootOf s
  | .error _ => none

/-- Evaluation of the compiled root of a stream at a point. -/
def compiledEval (instr : List Rat) (pt : List Rat) : Option Rat :=
  (compiledRoot instr).bind (evalN pt)

/-- Whether an `Except` result is a success. -/
def exceptIsOk {ε α : Type} : Except ε α → Bool
  | .ok _ => true
  | .error _ => false

/-- Outcome of compiling one nonlinear constraint and validating it in the
caller (`mexFunction` in scipmex.cpp): the value of the expression at the
validation point, the fact that the constraint was added to the problem
(`SCIPaddCons` runs inside `addNonlinearCon` before returning), and
whether the caller issued the `mexWarnMsgTxt` validation warning. -/
structure NLOutcome where
  fval : Option Rat
  consAdded : Bool
  warned : Bool
deriving DecidableEq

/-- The compile-validate pipeline of the caller (scipmex.cpp lines
1330-1346): compile, evaluate at the validation point, add the constraint,
and compare `REALABS(cval - conval[i])` against the feasibility tolerance
(`SCIPisFeasPositive`); a divergence beyond the tolerance only sets the
warning flag. -/
def processNonlinear (instr : List Rat) (xval : List Rat) (conval feastol : Rat) :
    Except String NLOutcome :=
  match addNonlinearConModel instr with
  | .error e => .error e
  | .ok s =>
    let fval := (rootOf s).bind (evalN xval)
    .ok { fval := fval
          consAdded := true
          warned :=
            match fval with
            | some v => decide (feastol < |v - conval|)
            | none => false }

/-- One `sqrt(x0)`-shaped instruction block `[VAR,0, SQRT,slot]`; from the
second block on, each occurrence defers the previous expression onto
`savexplst`. -/
def blockA : List Rat := [1, 0, 8, 0]

/-- `n` repetitions of `blockA`: a stream performing `n - 1` pushes onto
the saved-expression list. -/
def streamA (n : Nat) : List Rat := (List.replicate n blockA).flatten

/-- One `x0*x0`-shaped instruction block `[VAR,0, VAR,0, MUL,slot]`; from
the second block on, each occurrence defers the previous expression onto
`savexplst`. -/
def blockB : List Rat := [1, 0, 1, 0, 3, 0]

/-- `n` repetitions of `blockB`: a stream performing `n - 1` pushes onto
the saved-expression list. -/
def streamB (n : Nat) : List Rat := (List.replicate n blockB).flatten

/-! Helper lemmas. -/

theorem cIntCast_natCast (n : Nat) : cIntCast (n : Rat) = (n : Int) := by
  simp [cIntCast]

/-! Claim C1. -/

/-- Claim C1 counterexample: the stream `[VAR,0, NUM,0.0, DIV]` does not
compile; `addNonlinearCon` aborts at compile time with the fatal
`Division by constant 0.` error, so the claim that compilation succeeds
and the error is deferred to evaluation is false. -/
theorem C1_counterexample :
    addNonlinearConModel [(VAR : Rat), 0, (NUM : Rat), 0, (DIV : Rat), 0]
      = .error "Division by constant 0." := rfl

/-- Claim C1 (amended): a division whose divisor is the literal constant
`0.0` in second-register position (`VAR/NUM` and unflipped `EXP/NUM`
shapes) is rejected at compile time with `Division by constant 0.`; only a
symbolic divisor (for example `NUM/VAR`) compiles, and its division by
zero then surfaces at evaluation time (the evaluation has no value at a
point where the divisor is zero, while it does at a nonzero point). -/
theorem C1_amended_div_by_literal_zero :
    (∀ a s : Rat,
      addNonlinearConModel [(VAR : Rat), a, (NUM : Rat), 0, (DIV : Rat), s]
        = .error "Division by constant 0.") ∧
    (∀ (vari : Int) (flip : Bool) (arena : List ExprNode) (expno : Nat)
       (varind sxl : List Int),
      binOpDispatch DIV VAR NUM 0 vari flip arena expno varind sxl
        = .error "Division by constant 0.") ∧
    (addNonlinearConModel [(NUM : Rat), 3, (VAR : Rat), 0, (DIV : Rat), 0]).map
        (fun s => s.exp.length) = .ok 1 ∧
    compiledEval [(NUM : Rat), 3, (VAR : Rat), 0, (DIV : Rat), 0] [0] = none ∧
    compiledEval [(NUM : Rat), 3, (VAR : Rat), 0, (DIV : Rat), 0] [2] = some (3 / 2) :=
  ⟨fun _ _ => rfl, fun _ _ _ _ _ _ => rfl, rfl, rfl, by with_unfolding_all rfl⟩

/-! Claim C2. -/

/-- Claim C2 counterexample: the filled kind pair `(NUM, NUM)` (stream
`[NUM,1, NUM,2, ADD]`) is not handled by the dispatch: it hits the fatal
`Grouping of arguments not implemented yet.` error, so the claim that all
nine kind pairs are handled is false. -/
theorem C2_counterexample :
    addNonlinearConModel [(NUM : Rat), 1, (NUM : Rat), 2, (ADD : Rat), 0]
      = .error "Grouping of arguments not implemented yet." := rfl

/-! Claim C3. -/

/-- Claim C3 counterexample: the truncated stream `[NUM]` (an opcode whose
argument slot is missing) is decoded and processed without any error: the
pre-scan has no failure path, so the claim that it fails with a
`MalformedStream` error is false. -/
theorem C3_counterexample :
    exceptIsOk (addNonlinearConModel [(NUM : Rat)]) = true := rfl

/-- Claim C3 (amended): no truncation check exists anywhere in the
decoder: any single-token stream (an opcode with its argument slot
missing) passes the pre-scan and the whole compile without raising any
error. -/
theorem C3_amended_no_truncation_check (x : Rat) :
    exceptIsOk (addNonlinearConModel [x]) = true := rfl

/-! Claim C4. -/

/-- Claim C4: every `POW` whose exponent operand is a variable is a
compile-time error carrying the `exp(y*log(x))` workaround message: at the
dispatch level for all three shapes `NUM^VAR`, `VAR^VAR`, `EXP^VAR`, and
end to end for the streams `[VAR,0, VAR,1, POW]`, `[NUM,3, VAR,1, POW]`
and `[VAR,0, VAR,1, MUL, VAR,2, POW]`; evaluation is never reached (the
compiled evaluation of the failing stream has no value at any point). -/
theorem C4_pow_with_variable_exponent :
    (∀ (num : Rat) (vari : Int) (flip : Bool) (arena : List ExprNode) (expno : Nat)
       (varind sxl : List Int),
      binOpDispatch POW NUM VAR num vari flip arena expno varind sxl
        = .error "You cannot use POWER with the exponent as a variable. For x^y use exp(y*log(x))." ∧
      binOpDispatch POW VAR VAR num vari flip arena expno varind sxl
        = .error "You cannot use POWER with the exponent as a variable. For x^y use exp(y*log(x))." ∧
      binOpDispatch POW EXP VAR num vari flip arena expno varind sxl
        = .error "You cannot use POWER with the exponent as a variable. For x^y use exp(y*log(x)).") ∧
    addNonlinearConModel [(VAR : Rat), 0, (VAR : Rat), 1, (POW : Rat), 0]
      = .error "You cannot use POWER with the exponent as a variable. For x^y use exp(y*log(x))." ∧
    addNonlinearConModel [(NUM : Rat), 3, (VAR : Rat), 1, (POW : Rat), 0]
      = .error "You cannot use POWER with the exponent as a variable. For x^y use exp(y*log(x))." ∧
    addNonlinearConModel
        [(VAR : Rat), 0, (VAR : Rat), 1, (MUL : Rat), 0, (VAR : Rat), 2, (POW : Rat), 0]
      = .error "You cannot use POWER with the exponent as a variable. For x^y use exp(y*log(x))." ∧
    (∀ pt : List Rat,
      compiledEval [(VAR : Rat), 0, (VAR : Rat), 1, (POW : Rat), 0] pt = none) :=
  ⟨fun _ _ _ _ _ _ _ => ⟨rfl, rfl, rfl⟩, rfl, rfl, rfl, fun _ => rfl⟩

/-! Claim C5. -/

/-- Claim C5: a 2-token constant-only stream `[NUM, c]` short-circuits the
state machine into an arena holding exactly one `Constant` node, whose
evaluation at any point is exactly `c`. -/
theorem C5_constant_short_circuit (c : Rat) (pt : List Rat) :
    (addNonlinearConModel [(NUM : Rat), c]).map (fun s => s.exp) = .ok [.val c] ∧
    compiledRoot [(NUM : Rat), c] = some (.val c) ∧
    compiledEval [(NUM : Rat), c] pt = some c :=
  ⟨rfl, rfl, rfl⟩

/-! Claim C9. -/

/-- Claim C9: compiling `x0 - sqrt(x1)` (stream
`[VAR,0, VAR,1, SQRT, SUB]`) pops the deferred variable into the `SUB`
operator's empty second register and records the operand-order flip by
writing `1` into the caller-supplied instruction array at the operator's
trailing slot (index 7): the array is observably mutated across the call. -/
theorem C9_instruction_array_mutated :
    (addNonlinearConModel
        [(VAR : Rat), 0, (VAR : Rat), 1, (SQRT : Rat), 0, (SUB : Rat), 0]).map
        (fun s => s.instr)
      = .ok [(VAR : Rat), 0, (VAR : Rat), 1, (SQRT : Rat), 0, (SUB : Rat), 1] ∧
    ([(VAR : Rat), 0, (VAR : Rat), 1, (SQRT : Rat), 0, (SUB : Rat), 1] : List Rat)
      ≠ [(VAR : Rat), 0, (VAR : Rat), 1, (SQRT : Rat), 0, (SUB : Rat), 0] :=
  ⟨rfl, by decide⟩

/-! Claim C6. -/

/-- Claim C6: a 2-token single-variable stream `[VAR, i]` with a valid
index short-circuits the state machine into an arena holding exactly one
sum-of-one-term node (coefficient 1, bias 0) over the variable with
external index `i`, and its evaluation at any point is `point[i]`. -/
theorem C6_single_variable_short_circuit (i : Nat) (pt : List Rat) (h : i < pt.length) :
    (addNonlinearConModel [(VAR : Rat), (i : Rat)]).map (fun s => s.exp)
      = .ok [.sum1 1 (.varE (i : Int)) 0] ∧
    compiledEval [(VAR : Rat), (i : Rat)] pt = some pt[i] := by
  have hexp : (addNonlinearConModel [(VAR : Rat), (i : Rat)]).map (fun s => s.exp)
      = .ok [.sum1 1 (.varE (i : Int)) 0] := by
    simp [addNonlinearConModel, initState, varindScan, varindGo, expvar,
      cIntCast_natCast, Except.map, NUM, VAR, READ, OTHER, EMPTY]
  have hexpno : (addNonlinearConModel [(VAR : Rat), (i : Rat)]).map (fun s => s.expno)
      = .ok 0 := by
    simp [addNonlinearConModel, initState, Except.map, NUM, VAR]
  refine ⟨hexp, ?_⟩
  cases hc : addNonlinearConModel [(VAR : Rat), (i : Rat)] with
  | error e =>
    rw [hc] at hexp
    simp [Except.map] at hexp
  | ok s =>
    rw [hc] at hexp hexpno
    simp only [Except.map, Except.ok.injEq] at hexp hexpno
    simp [compiledEval, compiledRoot, hc, rootOf, hexpno, hexp, evalN,
      Int.toNat_natCast, List.getElem?_eq_getElem h]

/-- Claim C6 witness: the theorem applied at `i = 1` and point `[5, 7]`. -/
theorem C6_single_variable_short_circuit_witness :
    1 < ([5, 7] : List Rat).length ∧
    ((addNonlinearConModel [(VAR : Rat), ((1 : Nat) : Rat)]).map (fun s => s.exp)
        = .ok [.sum1 1 (.varE ((1 : Nat) : Int)) 0] ∧
      compiledEval [(VAR : Rat), ((1 : Nat) : Rat)] [5, 7] = some 7) := by
  refine ⟨by norm_num, ?_⟩
  have h := C6_single_variable_short_circuit 1 [5, 7] (by norm_num)
  simpa using h

/-! Claim C8. -/

/-- Claim C8: when a compile succeeds, the caller-side validation is
non-fatal: the constraint is added to the problem regardless of the
comparison against the expected value, and a divergence beyond the
feasibility tolerance merely sets the warning flag. -/
theorem C8_validation_mismatch_nonfatal (instr xval : List Rat) (conval feastol : Rat)
    (out : NLOutcome) (h : processNonlinear instr xval conval feastol = .ok out) :
    out.consAdded = true ∧
    ∀ v, out.fval = some v → (out.warned = true ↔ feastol < |v - conval|) := by
  unfold processNonlinear at h
  cases hc : addNonlinearConModel instr with
  | error e => rw [hc] at h; simp at h
  | ok s =>
    rw [hc] at h
    simp only [Except.ok.injEq] at h
    subst h
    refine ⟨rfl, ?_⟩
    intro v hv
    simp only at hv
    simp only [hv]
    simp

/-- Claim C8 witness: the theorem applied to the constant stream
`[NUM, 5]`, validation point `[]`, expected value `7` and tolerance
`1/100`: the evaluation is `5`, the divergence `2` exceeds the tolerance,
the warning flag is set, and the constraint is still added. -/
theorem C8_validation_mismatch_nonfatal_witness :
    processNonlinear [(NUM : Rat), 5] [] 7 (1 / 100)
      = .ok ⟨some 5, true, true⟩ ∧
    ((⟨some 5, true, true⟩ : NLOutcome).consAdded = true ∧
      ∀ v, (⟨some 5, true, true⟩ : NLOutcome).fval = some v →
        ((⟨some 5, true, true⟩ : NLOutcome).warned = true ↔ (1 / 100 : Rat) < |v - 7|)) := by
  have hp : processNonlinear [(NUM : Rat), 5] [] 7 (1 / 100) = .ok ⟨some 5, true, true⟩ := by
    with_unfolding_all rfl
  exact ⟨hp, C8_validation_mismatch_nonfatal [(NUM : Rat), 5] [] 7 (1 / 100) _ hp⟩

/-! Claim C2, amended part. -/

/-- Claim C2 (amended): with both registers filled, the dispatch handles
six of the nine kind pairs — `(NUM,VAR)`, `(VAR,NUM)`, `(VAR,VAR)`,
`(EXP,NUM)`, `(EXP,VAR)`, `(EXP,EXP)` — each creating exactly one new
arena node (given a nonzero constant for the divisions by a constant and a
valid saved-expression top for `(EXP,EXP)`); the three remaining pairs
`(NUM,NUM)`, `(NUM,EXP)`, `(VAR,EXP)` are fatal
`Grouping of arguments not implemented yet.` errors; `POW` succeeds with a
`NUM` exponent and is a hard error with a `VAR` exponent or on
`(EXP,EXP)`. -/
theorem C2_amended_dispatch_coverage (op a0 a1 : Int) (num : Rat) (vari : Int)
    (flip : Bool) (arena : List ExprNode) (expno : Nat) (varind : List Int)
    (v : Nat) (sxl : List Int)
    (hop : op = MUL ∨ op = DIV ∨ op = ADD ∨ op = SUB)
    (hnum : num ≠ 0) :
    (((a0 = NUM ∧ a1 = NUM) ∨ (a0 = NUM ∧ a1 = EXP) ∨ (a0 = VAR ∧ a1 = EXP)) →
      binOpDispatch op a0 a1 num vari flip arena expno varind ((v : Int) :: sxl)
        = .error "Grouping of arguments not implemented yet.") ∧
    (((a0 = NUM ∧ a1 = VAR) ∨ (a0 = VAR ∧ a1 = NUM) ∨ (a0 = VAR ∧ a1 = VAR) ∨
        (a0 = EXP ∧ a1 = NUM) ∨ (a0 = EXP ∧ a1 = VAR) ∨ (a0 = EXP ∧ a1 = EXP)) →
      ∃ r, binOpDispatch op a0 a1 num vari flip arena expno varind ((v : Int) :: sxl)
          = .ok r ∧ r.1.length = arena.length + 1) ∧
    (∀ b0, (b0 = VAR ∨ b0 = EXP) →
      ∃ r, binOpDispatch POW b0 NUM num vari flip arena expno varind ((v : Int) :: sxl)
          = .ok r ∧ r.1.length = arena.length + 1) := by
  have hv0 : ¬((v : Int) < 0) := by omega
  have hvE : ¬((v : Int) = EMPTY) := by simp only [EMPTY]; omega
  refine ⟨?_, ?_, ?_⟩
  · intro hpair
    rcases hpair with ⟨h0, h1⟩ | ⟨h0, h1⟩ | ⟨h0, h1⟩ <;> subst h0 <;> subst h1 <;>
      simp [binOpDispatch, NUM, VAR, EXP]
  · intro hpair
    rcases hpair with ⟨h0, h1⟩ | ⟨h0, h1⟩ | ⟨h0, h1⟩ | ⟨h0, h1⟩ | ⟨h0, h1⟩ | ⟨h0, h1⟩ <;>
      subst h0 <;> subst h1 <;>
      rcases hop with rfl | rfl | rfl | rfl <;>
      cases flip <;>
      simp [binOpDispatch, hnum, hv0, hvE, NUM, VAR, EXP, MUL, DIV, ADD, SUB, POW, EMPTY]
  · intro b0 hb0
    rcases hb0 with rfl | rfl <;>
      simp [binOpDispatch, NUM, VAR, EXP, MUL, DIV, ADD, SUB, POW]

/-- Claim C2 amended witness: the theorem applied at `op = ADD`,
`num = 1`, on the unhandled pair `(NUM, NUM)` and the handled pair
`(VAR, NUM)`. -/
theorem C2_amended_dispatch_coverage_witness :
    ((ADD = MUL ∨ ADD = DIV ∨ ADD = ADD ∨ ADD = SUB) ∧ (1 : Rat) ≠ 0) ∧
    binOpDispatch ADD NUM NUM 1 0 false [] 0 [] (((0 : Nat) : Int) :: [])
      = .error "Grouping of arguments not implemented yet." ∧
    (∃ r, binOpDispatch ADD VAR NUM 1 0 false [] 0 [] (((0 : Nat) : Int) :: [])
        = .ok r ∧ r.1.length = ([] : List ExprNode).length + 1) := by
  have hop : ADD = MUL ∨ ADD = DIV ∨ ADD = ADD ∨ ADD = SUB := Or.inr (Or.inr (Or.inl rfl))
  have hnum : (1 : Rat) ≠ 0 := one_ne_zero
  have h := C2_amended_dispatch_coverage ADD NUM NUM 1 0 false [] 0 [] 0 [] hop hnum
  have h2 := C2_amended_dispatch_coverage ADD VAR NUM 1 0 false [] 0 [] 0 [] hop hnum
  exact ⟨⟨hop, hnum⟩, h.1 (Or.inl ⟨rfl, rfl⟩), h2.2.1 (Or.inr (Or.inl ⟨rfl, rfl⟩))⟩

/-- Evaluation of the C int cast on the literal token 0. -/
theorem cIntCast_lit_zero : cIntCast 0 = 0 := by decide

/-- Evaluation of the C int cast on the literal token 1. -/
theorem cIntCast_lit_one : cIntCast 1 = 1 := by decide

/-- Evaluation of the C int cast on the literal token 3. -/
theorem cIntCast_lit_three : cIntCast 3 = 3 := by decide

/-- Evaluation of the C int cast on the literal token 8. -/
theorem cIntCast_lit_eight : cIntCast 8 = 8 := by decide

/-- Running one `blockA` from the steady shape (registers `EXP`, `EMPTY`)
with room on the saved-expression list: one push, one new node. -/
theorem runBlockA (rest : List Rat) (hr : rest.isEmpty = false) (instrF : List Rat)
    (p : Nat) (vc vi : Int) (hvc : 0 ≤ vc + 1) (en : Nat) (nm : Rat) (e : List ExprNode)
    (sxl : List Int) (px : Int) (hpx : px < 512) (svl : List Int) (pv : Int)
    (spl : List Int) (pp : Int) (vind : List Int) (nv no : Nat) :
    nlLoop (blockA ++ rest)
      ⟨instrF, p, READ, EXP, EMPTY, vc, vi, en, nm, e, sxl, px, svl, pv, spl, pp, vind, nv, no⟩
    = nlLoop rest
      ⟨instrF, p + 4, READ, EXP, EMPTY, vc + 1, vc + 1, en + 1, nm,
        e ++ [.powE (expvar vind (vc + 1)) (1 / 2)], ((en : Int) - 1) :: sxl, px + 1,
        svl, pv, EXP :: spl, pp + 1, vind, nv, no⟩ := by
  have hpx2 : ¬(MAX_DEPTH ≤ px) := by simp only [MAX_DEPTH]; omega
  have hvc2 : ¬(vc + 1 < 0) := by omega
  simp [blockA, nlLoop, nlStep, handleVar, handleUnary, advanceOp, Except.bind, hr, hpx2, hvc2,
    cIntCast_lit_zero, cIntCast_lit_one, cIntCast_lit_eight,
    READ, NUM, VAR, EXP, EMPTY, MUL, DIV, ADD, SUB, POW, SQUARE, SQRT, EXPNT,
    LOG, SIN, COS, TAN, MIN, MAX, ABS, SIGN, EXIT]

/-- Running the first `blockA` from the initial shape (both registers
empty): one new node, no push. -/
theorem runFirstA (rest : List Rat) (hr : rest.isEmpty = false) (instrF : List Rat)
    (p : Nat) (vc vi : Int) (hvc : 0 ≤ vc + 1) (en : Nat) (nm : Rat) (e : List ExprNode)
    (sxl : List Int) (px : Int) (svl : List Int) (pv : Int)
    (spl : List Int) (pp : Int) (vind : List Int) (nv no : Nat) :
    nlLoop (blockA ++ rest)
      ⟨instrF, p, READ, EMPTY, EMPTY, vc, vi, en, nm, e, sxl, px, svl, pv, spl, pp, vind, nv, no⟩
    = nlLoop rest
      ⟨instrF, p + 4, READ, EXP, EMPTY, vc + 1, vc + 1, en + 1, nm,
        e ++ [.powE (expvar vind (vc + 1)) (1 / 2)], sxl, px,
        svl, pv, spl, pp, vind, nv, no⟩ := by
  have hvc2 : ¬(vc + 1 < 0) := by omega
  simp [blockA, nlLoop, nlStep, handleVar, handleUnary, advanceOp, Except.bind, hr, hvc2,
    cIntCast_lit_zero, cIntCast_lit_one, cIntCast_lit_eight,
    READ, NUM, VAR, EXP, EMPTY, MUL, DIV, ADD, SUB, POW, SQUARE, SQRT, EXPNT,
    LOG, SIN, COS, TAN, MIN, MAX, ABS, SIGN, EXIT]

/-- Running a final `blockA` (end of stream) from the steady shape: one
push, one new node, state machine exits. -/
theorem runLastA (instrF : List Rat)
    (p : Nat) (vc vi : Int) (hvc : 0 ≤ vc + 1) (en : Nat) (nm : Rat) (e : List ExprNode)
    (sxl : List Int) (px : Int) (hpx : px < 512) (svl : List Int) (pv : Int)
    (spl : List Int) (pp : Int) (vind : List Int) (nv no : Nat) :
    nlLoop blockA
      ⟨instrF, p, READ, EXP, EMPTY, vc, vi, en, nm, e, sxl, px, svl, pv, spl, pp, vind, nv, no⟩
    = .ok
      ⟨instrF, p + 4, EXIT, EXP, EMPTY, vc + 1, vc + 1, en, nm,
        e ++ [.powE (expvar vind (vc + 1)) (1 / 2)], ((en : Int) - 1) :: sxl, px + 1,
        svl, pv, EXP :: spl, pp + 1, vind, nv, no⟩ := by
  have hpx2 : ¬(MAX_DEPTH ≤ px) := by simp only [MAX_DEPTH]; omega
  have hvc2 : ¬(vc + 1 < 0) := by omega
  simp [blockA, nlLoop, nlStep, handleVar, handleUnary, advanceOp, Except.bind, hpx2, hvc2,
    cIntCast_lit_zero, cIntCast_lit_one, cIntCast_lit_eight,
    READ, NUM, VAR, EXP, EMPTY, MUL, DIV, ADD, SUB, POW, SQUARE, SQRT, EXPNT,
    LOG, SIN, COS, TAN, MIN, MAX, ABS, SIGN, EXIT]

/-- Running one `blockA` from the steady shape when the saved-expression
position has already reached `MAX_DEPTH`: the depth guard fires. -/
theorem runBlockA_err (rest : List Rat) (instrF : List Rat)
    (p : Nat) (vc vi : Int) (en : Nat) (nm : Rat) (e : List ExprNode)
    (sxl : List Int) (px : Int) (hpx : MAX_DEPTH <= px) (svl : List Int) (pv : Int)
    (spl : List Int) (pp : Int) (vind : List Int) (nv no : Nat) :
    nlLoop (blockA ++ rest)
      ⟨instrF, p, READ, EXP, EMPTY, vc, vi, en, nm, e, sxl, px, svl, pv, spl, pp, vind, nv, no⟩
    = .error "Maximum function depth exceeded [expression list]." := by
  simp [blockA, nlLoop, nlStep, handleVar, handleUnary, advanceOp, Except.bind, hpx,
    cIntCast_lit_zero, cIntCast_lit_one, cIntCast_lit_eight,
    READ, NUM, VAR, EXP, EMPTY, MUL, DIV, ADD, SUB, POW, SQUARE, SQRT, EXPNT,
    LOG, SIN, COS, TAN, MIN, MAX, ABS, SIGN, EXIT]

/-- Running `m` copies of `blockA` and then a final one from the steady
shape: each copy pushes once, so the saved-expression position ends at
`px + m + 1`. -/
theorem runTailA (m : Nat) : ∀ (instrF : List Rat) (p : Nat) (vc vi : Int) (en : Nat)
    (nm : Rat) (e : List ExprNode) (sxl : List Int) (px : Int) (svl : List Int) (pv : Int)
    (spl : List Int) (pp : Int) (vind : List Int) (nv no : Nat),
    0 ≤ vc → px + m + 1 ≤ 512 →
    ∃ s2 : NLState,
      nlLoop ((List.replicate m blockA).flatten ++ blockA)
        ⟨instrF, p, READ, EXP, EMPTY, vc, vi, en, nm, e, sxl, px, svl, pv, spl, pp, vind, nv, no⟩
      = .ok s2 ∧ s2.psavexplst = px + m + 1 := by
  induction m with
  | zero =>
    intro instrF p vc vi en nm e sxl px svl pv spl pp vind nv no hvc hpx
    refine ⟨_, runLastA instrF p vc vi (by omega) en nm e sxl px (by omega)
      svl pv spl pp vind nv no, ?_⟩
    simp
  | succ m ih =>
    intro instrF p vc vi en nm e sxl px svl pv spl pp vind nv no hvc hpx
    have hr2 : ((List.replicate m blockA).flatten ++ blockA).isEmpty = false := by
      cases (List.replicate m blockA).flatten <;> rfl
    have hb := runBlockA ((List.replicate m blockA).flatten ++ blockA) hr2 instrF p vc vi
      (by omega) en nm e sxl px (by omega) svl pv spl pp vind nv no
    obtain ⟨s2, hs2, hpx2⟩ := ih instrF (p + 4) (vc + 1) (vc + 1) (en + 1) nm
      (e ++ [.powE (expvar vind (vc + 1)) (1 / 2)]) (((en : Int) - 1) :: sxl) (px + 1)
      svl pv (EXP :: spl) (pp + 1) vind nv no (by omega) (by push_cast; push_cast at hpx; omega)
    refine ⟨s2, ?_, by push_cast; push_cast at hpx2; omega⟩
    have hsplit : (List.replicate (m + 1) blockA).flatten ++ blockA
        = blockA ++ ((List.replicate m blockA).flatten ++ blockA) := by
      rw [List.replicate_succ, List.flatten_cons, List.append_assoc]
    rw [hsplit, hb]
    exact hs2
  
/-- Running `m` copies of `blockA` and then one more from the steady shape
when the saved-expression position would pass `MAX_DEPTH`: the depth guard
fires on the final copy. -/
theorem runTailA_err (m : Nat) : ∀ (instrF : List Rat) (p : Nat) (vc vi : Int) (en : Nat)
    (nm : Rat) (e : List ExprNode) (sxl : List Int) (px : Int) (svl : List Int) (pv : Int)
    (spl : List Int) (pp : Int) (vind : List Int) (nv no : Nat),
    0 ≤ vc → px + m = 512 →
    nlLoop ((List.replicate m blockA).flatten ++ blockA)
      ⟨instrF, p, READ, EXP, EMPTY, vc, vi, en, nm, e, sxl, px, svl, pv, spl, pp, vind, nv, no⟩
    = .error "Maximum function depth exceeded [expression list]." := by
  induction m with
  | zero =>
    intro instrF p vc vi en nm e sxl px svl pv spl pp vind nv no hvc hpx
    exact runBlockA_err [] instrF p vc vi en nm e sxl px
      (by simp only [MAX_DEPTH]; omega) svl pv spl pp vind nv no
  | succ m ih =>
    intro instrF p vc vi en nm e sxl px svl pv spl pp vind nv no hvc hpx
    have hb := runBlockA ((List.replicate m blockA).flatten ++ blockA)
      (by cases (List.replicate m blockA).flatten <;> rfl) instrF p vc vi
      (by omega) en nm e sxl px (by push_cast at hpx; omega) svl pv spl pp vind nv no
    have hsplit : (List.replicate (m + 1) blockA).flatten ++ blockA
        = blockA ++ ((List.replicate m blockA).flatten ++ blockA) := by
      rw [List.replicate_succ, List.flatten_cons, List.append_assoc]
    rw [hsplit, hb]
    exact ih instrF (p + 4) (vc + 1) (vc + 1) (en + 1) nm
      (e ++ [.powE (expvar vind (vc + 1)) (1 / 2)]) (((en : Int) - 1) :: sxl) (px + 1)
      svl pv (EXP :: spl) (pp + 1) vind nv no (by omega) (by push_cast at hpx ⊢; omega)

/-- Unfolding one block of `streamA`. -/
theorem streamA_succ (n : Nat) : streamA (n + 1) = blockA ++ streamA n := by
  simp [streamA, List.replicate_succ]

/-- Splitting `streamA` into a first block, a middle, and a last block. -/
theorem streamA_decomp (m : Nat) :
    streamA (m + 2) = blockA ++ ((List.replicate m blockA).flatten ++ blockA) := by
  rw [streamA_succ, streamA]
  rw [List.replicate_succ', List.flatten_append]
  simp

/-- Length of `streamA`. -/
theorem streamA_length (n : Nat) : (streamA n).length = 4 * n := by
  induction n with
  | zero => rfl
  | succ k ih =>
    rw [streamA_succ]
    simp [blockA, ih]
    omega

/-- Claim C7: the depth guard is off by one.  The 514-block stream needs
513 saved-expression entries, one more than the configured maximum
`MAX_DEPTH = 512`, yet the compile completes without any error, with the
saved-expression position ending at `MAX_DEPTH` itself - in the C code the
513th push writes `savexplst[512]`, one past the last valid index of
`int savexplst[512]`.  Only the 515-block stream fails with the
`Maximum function depth exceeded` error. -/
theorem C7_depth_exceeded_off_by_one :
    (addNonlinearConModel (streamA 514)).map (fun s => s.psavexplst) = .ok MAX_DEPTH ∧
    addNonlinearConModel (streamA 515)
      = .error "Maximum function depth exceeded [expression list]." := by
  constructor
  · have hd : streamA 514 = blockA ++ ((List.replicate 512 blockA).flatten ++ blockA) := by
      have h := streamA_decomp 512
      norm_num at h
      exact h
    have hlen : ¬((streamA 514).length = 2 ∧ (streamA 514).getD 0 0 = (NUM : Rat)) := by
      rw [streamA_length]
      norm_num
    have hlen2 : ¬((streamA 514).length = 2 ∧ (streamA 514).getD 0 0 = (VAR : Rat)) := by
      rw [streamA_length]
      norm_num
    unfold addNonlinearConModel
    rw [if_neg hlen, if_neg hlen2]
    rw [show initState (streamA 514) = ⟨streamA 514, 0, READ, EMPTY, EMPTY, -1, -1, 0, 0,
      [], [], -1, [], -1, [], -1, varindScan (streamA 514),
      (prescanCounts (streamA 514)).1, (prescanCounts (streamA 514)).2⟩ from rfl]
    rw [hd]
    have hr1 : (((List.replicate 512 blockA).flatten ++ blockA)).isEmpty = false := by
      cases (List.replicate 512 blockA).flatten <;> rfl
    rw [runFirstA _ hr1 _ _ _ _ (by norm_num)]
    obtain ⟨s2, hs2, hps⟩ := runTailA 512
      (blockA ++ ((List.replicate 512 blockA).flatten ++ blockA)) (0 + 4) (-1 + 1) (-1 + 1)
      (0 + 1) 0
      ([] ++ [.powE (expvar (varindScan (blockA ++ ((List.replicate 512 blockA).flatten ++ blockA))) (-1 + 1)) (1 / 2)])
      [] (-1) [] (-1) [] (-1)
      (varindScan (blockA ++ ((List.replicate 512 blockA).flatten ++ blockA)))
      (prescanCounts (blockA ++ ((List.replicate 512 blockA).flatten ++ blockA))).1
      (prescanCounts (blockA ++ ((List.replicate 512 blockA).flatten ++ blockA))).2
      (by norm_num) (by norm_num)
    rw [hs2]
    simp [Except.map]
    rw [hps]
    norm_num [MAX_DEPTH]
  · have hd : streamA 515 = blockA ++ ((List.replicate 513 blockA).flatten ++ blockA) := by
      have h := streamA_decomp 513
      norm_num at h
      exact h
    have hlen : ¬((streamA 515).length = 2 ∧ (streamA 515).getD 0 0 = (NUM : Rat)) := by
      rw [streamA_length]
      norm_num
    have hlen2 : ¬((streamA 515).length = 2 ∧ (streamA 515).getD 0 0 = (VAR : Rat)) := by
      rw [streamA_length]
      norm_num
    unfold addNonlinearConModel
    rw [if_neg hlen, if_neg hlen2]
    rw [show initState (streamA 515) = ⟨streamA 515, 0, READ, EMPTY, EMPTY, -1, -1, 0, 0,
      [], [], -1, [], -1, [], -1, varindScan (streamA 515),
      (prescanCounts (streamA 515)).1, (prescanCounts (streamA 515)).2⟩ from rfl]
    rw [hd]
    have hr1 : (((List.replicate 513 blockA).flatten ++ blockA)).isEmpty = false := by
      cases (List.replicate 513 blockA).flatten <;> rfl
    rw [runFirstA _ hr1 _ _ _ _ (by norm_num)]
    exact runTailA_err 513 _ _ _ _ _ _ _ _ _ _ _ _ _ _ _ _ (by norm_num) (by norm_num)

/-- Running one `blockB` from the steady shape (registers `EXP`, `EMPTY`)
with room on the saved-expression list: one push, one new node. -/
theorem runBlockB (rest : List Rat) (hr : rest.isEmpty = false) (instrF : List Rat)
    (p : Nat) (vc vi : Int) (en : Nat) (nm : Rat) (e : List ExprNode)
    (sxl : List Int) (px : Int) (hpx : px < 512) (svl : List Int) (pv : Int)
    (spl : List Int) (pp : Int) (vind : List Int) (nv no : Nat) :
    nlLoop (blockB ++ rest)
      ⟨instrF, p, READ, EXP, EMPTY, vc, vi, en, nm, e, sxl, px, svl, pv, spl, pp, vind, nv, no⟩
    = nlLoop rest
      ⟨instrF, p + 6, READ, EXP, EMPTY, vc + 1 + 1, vc + 1 + 1, en + 1, nm,
        e ++ [.prod2 (expvar vind (vc + 1 + 1 - 1)) (expvar vind (vc + 1 + 1)) 1],
        ((en : Int) - 1) :: sxl, px + 1,
        svl, pv, EXP :: spl, pp + 1, vind, nv, no⟩ := by
  have hpx2 : ¬(MAX_DEPTH ≤ px) := by simp only [MAX_DEPTH]; omega
  simp [blockB, nlLoop, nlStep, handleVar, handleBinop, binOpDispatch, advanceOp,
    Except.bind, hr, hpx2,
    cIntCast_lit_zero, cIntCast_lit_one, cIntCast_lit_three,
    READ, NUM, VAR, EXP, EMPTY, MUL, DIV, ADD, SUB, POW, SQUARE, SQRT, EXPNT,
    LOG, SIN, COS, TAN, MIN, MAX, ABS, SIGN, EXIT]

/-- Running the first `blockB` from the initial shape (both registers
empty): one new node, no push. -/
theorem runFirstB (rest : List Rat) (hr : rest.isEmpty = false) (instrF : List Rat)
    (p : Nat) (vc vi : Int) (en : Nat) (nm : Rat) (e : List ExprNode)
    (sxl : List Int) (px : Int) (svl : List Int) (pv : Int)
    (spl : List Int) (pp : Int) (vind : List Int) (nv no : Nat) :
    nlLoop (blockB ++ rest)
      ⟨instrF, p, READ, EMPTY, EMPTY, vc, vi, en, nm, e, sxl, px, svl, pv, spl, pp, vind, nv, no⟩
    = nlLoop rest
      ⟨instrF, p + 6, READ, EXP, EMPTY, vc + 1 + 1, vc + 1 + 1, en + 1, nm,
        e ++ [.prod2 (expvar vind (vc + 1 + 1 - 1)) (expvar vind (vc + 1 + 1)) 1], sxl, px,
        svl, pv, spl, pp, vind, nv, no⟩ := by
  simp [blockB, nlLoop, nlStep, handleVar, handleBinop, binOpDispatch, advanceOp,
    Except.bind, hr,
    cIntCast_lit_zero, cIntCast_lit_one, cIntCast_lit_three,
    READ, NUM, VAR, EXP, EMPTY, MUL, DIV, ADD, SUB, POW, SQUARE, SQRT, EXPNT,
    LOG, SIN, COS, TAN, MIN, MAX, ABS, SIGN, EXIT]

/-- Running a final `blockB` (end of stream) from the steady shape: one
push, one new node, state machine exits. -/
theorem runLastB (instrF : List Rat)
    (p : Nat) (vc vi : Int) (en : Nat) (nm : Rat) (e : List ExprNode)
    (sxl : List Int) (px : Int) (hpx : px < 512) (svl : List Int) (pv : Int)
    (spl : List Int) (pp : Int) (vind : List Int) (nv no : Nat) :
    nlLoop blockB
      ⟨instrF, p, READ, EXP, EMPTY, vc, vi, en, nm, e, sxl, px, svl, pv, spl, pp, vind, nv, no⟩
    = .ok
      ⟨instrF, p + 6, EXIT, EXP, EMPTY, vc + 1 + 1, vc + 1 + 1, en, nm,
        e ++ [.prod2 (expvar vind (vc + 1 + 1 - 1)) (expvar vind (vc + 1 + 1)) 1],
        ((en : Int) - 1) :: sxl, px + 1,
        svl, pv, EXP :: spl, pp + 1, vind, nv, no⟩ := by
  have hpx2 : ¬(MAX_DEPTH ≤ px) := by simp only [MAX_DEPTH]; omega
  simp [blockB, nlLoop, nlStep, handleVar, handleBinop, binOpDispatch, advanceOp,
    Except.bind, hpx2,
    cIntCast_lit_zero, cIntCast_lit_one, cIntCast_lit_three,
    READ, NUM, VAR, EXP, EMPTY, MUL, DIV, ADD, SUB, POW, SQUARE, SQRT, EXPNT,
    LOG, SIN, COS, TAN, MIN, MAX, ABS, SIGN, EXIT]

/-- Running `m` copies of `blockB` and then a final one from the steady
shape: each copy pushes once, so the saved-expression position ends at
`px + m + 1`. -/
theorem runTailB (m : Nat) : ∀ (instrF : List Rat) (p : Nat) (vc vi : Int) (en : Nat)
    (nm : Rat) (e : List ExprNode) (sxl : List Int) (px : Int) (svl : List Int) (pv : Int)
    (spl : List Int) (pp : Int) (vind : List Int) (nv no : Nat),
    px + m + 1 ≤ 512 →
    ∃ s2 : NLState,
      nlLoop ((List.replicate m blockB).flatten ++ blockB)
        ⟨instrF, p, READ, EXP, EMPTY, vc, vi, en, nm, e, sxl, px, svl, pv, spl, pp, vind, nv, no⟩
      = .ok s2 ∧ s2.psavexplst = px + m + 1 := by
  induction m with
  | zero =>
    intro instrF p vc vi en nm e sxl px svl pv spl pp vind nv no hpx
    refine ⟨_, runLastB instrF p vc vi en nm e sxl px (by omega)
      svl pv spl pp vind nv no, ?_⟩
    simp
  | succ m ih =>
    intro instrF p vc vi en nm e sxl px svl pv spl pp vind nv no hpx
    have hr2 : ((List.replicate m blockB).flatten ++ blockB).isEmpty = false := by
      cases (List.replicate m blockB).flatten <;> rfl
    have hb := runBlockB ((List.replicate m blockB).flatten ++ blockB) hr2 instrF p vc vi
      en nm e sxl px (by omega) svl pv spl pp vind nv no
    obtain ⟨s2, hs2, hpx2⟩ := ih instrF (p + 6) (vc + 1 + 1) (vc + 1 + 1) (en + 1) nm
      (e ++ [.prod2 (expvar vind (vc + 1 + 1 - 1)) (expvar vind (vc + 1 + 1)) 1])
      (((en : Int) - 1) :: sxl) (px + 1)
      svl pv (EXP :: spl) (pp + 1) vind nv no (by push_cast at hpx ⊢; omega)
    refine ⟨s2, ?_, by push_cast at hpx2 ⊢; omega⟩
    have hsplit : (List.replicate (m + 1) blockB).flatten ++ blockB
        = blockB ++ ((List.replicate m blockB).flatten ++ blockB) := by
      rw [List.replicate_succ, List.flatten_cons, List.append_assoc]
    rw [hsplit, hb]
    exact hs2

/-- Unfolding one block of `streamB`. -/
theorem streamB_succ (n : Nat) : streamB (n + 1) = blockB ++ streamB n := by
  simp [streamB, List.replicate_succ]

/-- Splitting `streamB` into a first block, a middle, and a last block. -/
theorem streamB_decomp (m : Nat) :
    streamB (m + 2) = blockB ++ ((List.replicate m blockB).flatten ++ blockB) := by
  rw [streamB_succ, streamB]
  rw [List.replicate_succ', List.flatten_append]
  simp

/-- Length of `streamB`. -/
theorem streamB_length (n : Nat) : (streamB n).length = 6 * n := by
  induction n with
  | zero => rfl
  | succ k ih =>
    rw [streamB_succ]
    simp [blockB, ih]
    omega

/-- Claim C10: the push guard `psavexplst >= MAX_DEPTH` does not keep the
write index below the array capacity.  Compiling the 514-block stream
completes with the saved-expression position equal to `MAX_DEPTH = 512`:
the 513th push passed the guard with `psavexplst == 511` and wrote at
index 512, outside the bounds of `int savexplst[512]`. -/
theorem C10_depth_guard_writes_at_capacity :
    (addNonlinearConModel (streamB 514)).map (fun s => s.psavexplst) = .ok MAX_DEPTH := by
  have hd : streamB 514 = blockB ++ ((List.replicate 512 blockB).flatten ++ blockB) := by
    have h := streamB_decomp 512
    norm_num at h
    exact h
  have hlen : ¬((streamB 514).length = 2 ∧ (streamB 514).getD 0 0 = (NUM : Rat)) := by
    rw [streamB_length]
    norm_num
  have hlen2 : ¬((streamB 514).length = 2 ∧ (streamB 514).getD 0 0 = (VAR : Rat)) := by
    rw [streamB_length]
    norm_num
  unfold addNonlinearConModel
  rw [if_neg hlen, if_neg hlen2]
  rw [show initState (streamB 514) = ⟨streamB 514, 0, READ, EMPTY, EMPTY, -1, -1, 0, 0,
    [], [], -1, [], -1, [], -1, varindScan (streamB 514),
    (prescanCounts (streamB 514)).1, (prescanCounts (streamB 514)).2⟩ from rfl]
  rw [hd]
  have hr1 : (((List.replicate 512 blockB).flatten ++ blockB)).isEmpty = false := by
    cases (List.replicate 512 blockB).flatten <;> rfl
  rw [runFirstB _ hr1]
  obtain ⟨s2, hs2, hps⟩ := runTailB 512
    (blockB ++ ((List.replicate 512 blockB).flatten ++ blockB)) (0 + 6) (-1 + 1 + 1) (-1 + 1 + 1)
    (0 + 1) 0
    ([] ++ [.prod2 (expvar (varindScan (blockB ++ ((List.replicate 512 blockB).flatten ++ blockB))) (-1 + 1 + 1 - 1))
      (expvar (varindScan (blockB ++ ((List.replicate 512 blockB).flatten ++ blockB))) (-1 + 1 + 1)) 1])
    [] (-1) [] (-1) [] (-1)
    (varindScan (blockB ++ ((List.replicate 512 blockB).flatten ++ blockB)))
    (prescanCounts (blockB ++ ((List.replicate 512 blockB).flatten ++ blockB))).1
    (prescanCounts (blockB ++ ((List.replicate 512 blockB).flatten ++ blockB))).2
    (by norm_num)
  rw [hs2]
  simp [Except.map]
  rw [hps]
  norm_num [MAX_DEPTH]

end ScipNL